import Mathlib

/-!
Verification development for the Paynode-Aggregator matching and settlement
engine. The definitions below are a shallow embedding of the Rust sources
under `src/shared/types`, `src/shared/database` and `src/paynode/shared`:
machine integers become `Nat` (Rust `u64`/`u128` parsing bounds are made
explicit where the code depends on them), `chrono::DateTime<Utc>` becomes a
`Nat` timestamp supplied explicitly wherever the code calls `Utc::now()`,
and `Option` models Rust `Option`.
-/

namespace Paynode

/-! ## Decimal-string parsing, mirroring Rust `str::parse::<u128>` -/

/-- One decimal digit of a `u128` literal, `none` for a non-digit. -/
def decDigit? (c : Char) : Option Nat :=
  if '0' ≤ c ∧ c ≤ '9' then some (c.toNat - 48) else none

/-- Accumulate decimal digits; fails on any non-digit character. -/
def decDigitsAux : List Char → Nat → Option Nat
  | [], acc => some acc
  | c :: cs, acc =>
    match decDigit? c with
    | some d => decDigitsAux cs (acc * 10 + d)
    | none => none

/-- The numeric value of a decimal string, mirroring the grammar accepted by
Rust integer parsing: an optional leading `+`, then one or more digits.
`none` on the empty string or any other character. (The `u128` range check
is applied separately, in `parseU128Or`.) -/
def parseDec? (s : String) : Option Nat :=
  match s.data with
  | [] => none
  | '+' :: rest => if rest = [] then none else decDigitsAux rest 0
  | l => decDigitsAux l 0

/-- Largest value representable in Rust's `u128`. -/
def u128Max : Nat := 2 ^ 128 - 1

/-- Mirrors `s.parse::<u128>().unwrap_or(d)`: the parsed value when `s` is a
well-formed decimal numeral in `u128` range, and the fallback `d` on a parse
error (malformed input or positive overflow). -/
def parseU128Or (s : String) (d : Nat) : Nat :=
  match parseDec? s with
  | some n => if n ≤ u128Max then n else d
  | none => d

/-! ## Enums — `src/shared/types/src/enums.rs` -/

/-- Order classification tiers (`OrderTier`). -/
inductive OrderTier
  | Alpha
  | Beta
  | Delta
  | Omega
  | Titan
deriving DecidableEq, Repr

/-- Numeric rank of a tier, `Alpha` smallest through `Titan` largest; used to
state monotonicity of the classifier. -/
def OrderTier.toNat : OrderTier → Nat
  | .Alpha => 0
  | .Beta => 1
  | .Delta => 2
  | .Omega => 3
  | .Titan => 4

/-- `OrderTier::as_str`. -/
def OrderTier.as_str : OrderTier → String
  | .Alpha => "ALPHA"
  | .Beta => "BETA"
  | .Delta => "DELTA"
  | .Omega => "OMEGA"
  | .Titan => "TITAN"

/-- Tier boundary configuration (`TierLimits`), all fields Rust `u128`. -/
structure TierLimits where
  alpha : Nat
  beta : Nat
  delta : Nat
  omega : Nat
  titan : Nat
deriving DecidableEq, Repr

/-- `OrderTier::from_amount`: parse the amount with fallback `0`, then walk
the inclusive-upper boundary chain. -/
def OrderTier.from_amount (amount : String) (limits : TierLimits) : OrderTier :=
  let amount : Nat := parseU128Or amount 0
  if amount ≤ limits.alpha then .Alpha
  else if amount ≤ limits.beta then .Beta
  else if amount ≤ limits.delta then .Delta
  else if amount ≤ limits.omega then .Omega
  else .Titan

/-- The boundary chain of `OrderTier::from_amount` on an already-parsed
numeric amount (the `let amount = ...` body of the source function). -/
def tierOfNat (limits : TierLimits) (a : Nat) : OrderTier :=
  if a ≤ limits.alpha then .Alpha
  else if a ≤ limits.beta then .Beta
  else if a ≤ limits.delta then .Delta
  else if a ≤ limits.omega then .Omega
  else .Titan

/-- Order lifecycle status (`OrderStatus`). -/
inductive OrderStatus
  | Pending
  | Accepted
  | Fulfilled
  | Refunded
  | Expired
deriving DecidableEq, Repr

/-- `OrderStatus::as_str`. -/
def OrderStatus.as_str : OrderStatus → String
  | .Pending => "PENDING"
  | .Accepted => "ACCEPTED"
  | .Fulfilled => "FULFILLED"
  | .Refunded => "REFUNDED"
  | .Expired => "EXPIRED"

/-- `OrderStatus::from_str`: `None` on any unrecognized string. A Rust
`match` on string literals is a sequential comparison chain. -/
def OrderStatus.from_str (s : String) : Option OrderStatus :=
  if s = "PENDING" then some .Pending
  else if s = "ACCEPTED" then some .Accepted
  else if s = "FULFILLED" then some .Fulfilled
  else if s = "REFUNDED" then some .Refunded
  else if s = "EXPIRED" then some .Expired
  else none

/-- Proposal lifecycle status (`ProposalStatus`). -/
inductive ProposalStatus
  | Pending
  | Accepted
  | Rejected
  | TimedOut
  | Executed
deriving DecidableEq, Repr

/-- `ProposalStatus::as_str`. -/
def ProposalStatus.as_str : ProposalStatus → String
  | .Pending => "PENDING"
  | .Accepted => "ACCEPTED"
  | .Rejected => "REJECTED"
  | .TimedOut => "TIMED_OUT"
  | .Executed => "EXECUTED"

/-- The terminal proposal states named by the specification's invariant:
`Rejected`, `TimedOut`, `Executed`. -/
def ProposalStatus.isTerminal : ProposalStatus → Bool
  | .Rejected => true
  | .TimedOut => true
  | .Executed => true
  | _ => false

/-- Supported currencies (`Currency`), with the open `Custom` variant. -/
inductive Currency
  | NGN
  | KES
  | GHS
  | ZAR
  | USD
  | EUR
  | Custom (s : String)
deriving DecidableEq, Repr

/-- `Currency::as_str`. -/
def Currency.as_str : Currency → String
  | .NGN => "NGN"
  | .KES => "KES"
  | .GHS => "GHS"
  | .ZAR => "ZAR"
  | .USD => "USD"
  | .EUR => "EUR"
  | .Custom s => s

/-- `Currency::from_str`: unknown codes are preserved in `Custom`. -/
def Currency.from_str (s : String) : Currency :=
  if s = "NGN" then .NGN
  else if s = "KES" then .KES
  else if s = "GHS" then .GHS
  else if s = "ZAR" then .ZAR
  else if s = "USD" then .USD
  else if s = "EUR" then .EUR
  else .Custom s

/-! ## Proposal — `src/shared/types/src/proposal.rs`

`Utc::now()` in the source becomes an explicit `now : Nat` argument. -/

/-- Settlement proposal (`Proposal`). -/
structure Proposal where
  proposal_id : String
  order_id : String
  provider : String
  proposed_fee_bps : Nat
  status : ProposalStatus
  created_at : Nat
  deadline : Nat
  accepted_at : Option Nat
  executed_at : Option Nat
  tx_hash : Option String
deriving DecidableEq, Repr

/-- `Proposal::is_expired`: `Utc::now() > self.deadline && self.status == Pending`. -/
def Proposal.is_expired (p : Proposal) (now : Nat) : Bool :=
  decide (now > p.deadline) && decide (p.status = .Pending)

/-- `Proposal::accept`: unconditionally sets `status = Accepted` and
`accepted_at = Some(now)`; the source performs no state or deadline check. -/
def Proposal.accept (p : Proposal) (now : Nat) : Proposal :=
  { p with status := .Accepted, accepted_at := some now }

/-- `Proposal::reject`: unconditionally sets `status = Rejected`. -/
def Proposal.reject (p : Proposal) : Proposal :=
  { p with status := .Rejected }

/-- `Proposal::execute`: unconditionally sets `status = Executed`,
`executed_at = Some(now)` and the transaction hash. -/
def Proposal.execute (p : Proposal) (now : Nat) (tx_hash : String) : Proposal :=
  { p with status := .Executed, executed_at := some now, tx_hash := some tx_hash }

/-! ## ProviderIntent — `src/shared/types/src/provider.rs` -/

/-- Provider liquidity intent (`ProviderIntent`). -/
structure ProviderIntent where
  provider : String
  currency : Currency
  available_amount : String
  min_fee_bps : Nat
  max_fee_bps : Nat
  commitment_window_seconds : Nat
  is_active : Bool
  registered_at : Nat
  expires_at : Nat
deriving DecidableEq, Repr

/-- `ProviderIntent::is_valid`: `self.is_active && Utc::now() < self.expires_at`. -/
def ProviderIntent.is_valid (i : ProviderIntent) (now : Nat) : Bool :=
  i.is_active && decide (now < i.expires_at)

/-- `ProviderIntent::can_handle_amount`: both sides are parsed with
`parse::<u128>()`, the available side falling back to `0` and the requested
side to `u128::MAX` on a parse error, then compared as `u128`. -/
def ProviderIntent.can_handle_amount (i : ProviderIntent) (amount : String) : Bool :=
  let available : Nat := parseU128Or i.available_amount 0
  let requested : Nat := parseU128Or amount u128Max
  decide (available ≥ requested)

/-- `ProviderIntent::accepts_fee`: inclusive band check. -/
def ProviderIntent.accepts_fee (i : ProviderIntent) (fee_bps : Nat) : Bool :=
  decide (fee_bps ≥ i.min_fee_bps) && decide (fee_bps ≤ i.max_fee_bps)

/-! ## Order — `src/shared/types/src/order.rs` -/

/-- Core order domain model (`Order`). The random `Uuid::new_v4()` of the
source becomes an explicit `id : Nat` supplied by the caller. -/
structure Order where
  id : Nat
  order_id : String
  user_address : String
  token : String
  amount : String
  refund_address : String
  integrator_address : String
  integrator_fee_bps : Nat
  status : OrderStatus
  tier : OrderTier
  currency : Currency
  created_at : Nat
  expires_at : Nat
  updated_at : Nat
  block_number : Nat
  tx_hash : String
deriving DecidableEq, Repr

/-- `Order::new`: `status = Pending`, `created_at = updated_at = now`, and
`expires_at` copied from the argument with no validation against `now`. -/
def Order.new (fresh_id : Nat) (order_id user_address token amount refund_address
    integrator_address : String) (integrator_fee_bps : Nat) (currency : Currency)
    (tier : OrderTier) (expires_at : Nat) (block_number : Nat) (tx_hash : String)
    (now : Nat) : Order :=
  { id := fresh_id
    order_id := order_id
    user_address := user_address
    token := token
    amount := amount
    refund_address := refund_address
    integrator_address := integrator_address
    integrator_fee_bps := integrator_fee_bps
    status := .Pending
    tier := tier
    currency := currency
    created_at := now
    expires_at := expires_at
    updated_at := now
    block_number := block_number
    tx_hash := tx_hash }

/-- Modelled from the spec: the Eligibility Filter's per-intent predicate
(§4.2). The repository holds no single Rust function combining the four
checks — currency matching happens in the repository's SQL query
(`get_eligible_providers`) while the other checks are the
`ProviderIntent` methods above — so the conjunction itself follows the
spec's wording, each conjunct being the corresponding source definition. -/
def eligible (o : Order) (i : ProviderIntent) (now : Nat) : Bool :=
  decide (i.currency = o.currency) && i.is_valid now
    && i.can_handle_amount o.amount && i.accepts_fee o.integrator_fee_bps

/-! ## ProviderReputation — `src/shared/types/src/reputation.rs` -/

/-- Provider reputation record (`ProviderReputation`). Counters are Rust
`u64`, the volume a decimal string. -/
structure ProviderReputation where
  provider : String
  total_orders : Nat
  successful_orders : Nat
  failed_orders : Nat
  no_shows : Nat
  avg_settlement_time_seconds : Nat
  total_volume : String
  last_updated : Nat
deriving DecidableEq, Repr

/-- `ProviderReputation::new`: all counters zero, volume `"0"`. -/
def ProviderReputation.new (provider : String) (now : Nat) : ProviderReputation :=
  { provider := provider
    total_orders := 0
    successful_orders := 0
    failed_orders := 0
    no_shows := 0
    avg_settlement_time_seconds := 0
    total_volume := "0"
    last_updated := now }

/-- `ProviderReputation::record_success`: increments both counters, folds the
new settlement time into the running average, and re-parses the stored volume
and the new amount as `u128` (each falling back to `0` on a parse error)
before adding and re-serializing. -/
def ProviderReputation.record_success (r : ProviderReputation)
    (settlement_time_seconds : Nat) (amount : String) (now : Nat) : ProviderReputation :=
  let total_orders := r.total_orders + 1
  let successful_orders := r.successful_orders + 1
  let total_time := r.avg_settlement_time_seconds * (successful_orders - 1)
  let avg := (total_time + settlement_time_seconds) / successful_orders
  let current_volume : Nat := parseU128Or r.total_volume 0
  let new_amount : Nat := parseU128Or amount 0
  { r with
    total_orders := total_orders
    successful_orders := successful_orders
    avg_settlement_time_seconds := avg
    total_volume := Nat.repr (current_volume + new_amount)
    last_updated := now }

/-- `ProviderReputation::record_failure`. -/
def ProviderReputation.record_failure (r : ProviderReputation) (now : Nat) : ProviderReputation :=
  { r with
    total_orders := r.total_orders + 1
    failed_orders := r.failed_orders + 1
    last_updated := now }

/-- `ProviderReputation::record_no_show`. -/
def ProviderReputation.record_no_show (r : ProviderReputation) (now : Nat) : ProviderReputation :=
  { r with
    total_orders := r.total_orders + 1
    no_shows := r.no_shows + 1
    last_updated := now }

/-- One recorded settlement outcome, for reasoning about arbitrary call
sequences against a reputation record. -/
inductive ReputationEvent
  | success (settlement_time_seconds : Nat) (amount : String) (now : Nat)
  | failure (now : Nat)
  | noShow (now : Nat)
deriving DecidableEq, Repr

/-- Apply one recorded outcome via the corresponding source method. -/
def ProviderReputation.apply (r : ProviderReputation) : ReputationEvent → ProviderReputation
  | .success t a now => r.record_success t a now
  | .failure now => r.record_failure now
  | .noShow now => r.record_no_show now

/-! ## Database model — `src/shared/database/src/models/order.rs`

Byte arrays (`Vec<u8>`, PostgreSQL `BYTEA`) become `List Nat` with each
entry a byte value; `i32`/`i64` columns become `Int`. -/

/-- One lowercase hex digit, as produced by `hex::encode`. -/
def hexDigit (n : Nat) : Char :=
  if n < 10 then Char.ofNat (48 + n) else Char.ofNat (87 + n)

/-- Two-digit lowercase hex of one byte. -/
def hexByte (b : Nat) : List Char :=
  [hexDigit (b / 16 % 16), hexDigit (b % 16)]

/-- `format!("0x{}", hex::encode(bytes))`. -/
def hex0x (bs : List Nat) : String :=
  "0x" ++ String.mk (bs.map hexByte).flatten

/-- Rust `as u64` on an `i64` value: two's-complement reinterpretation. -/
def toU64 (i : Int) : Nat :=
  (i % (2 ^ 64 : Int)).toNat

/-- Database row for an order (`OrderModel`). -/
structure OrderModel where
  id : Int
  order_id : List Nat
  user_address : List Nat
  token : List Nat
  amount : String
  refund_address : List Nat
  integrator_address : List Nat
  integrator_fee : List Nat
  status : String
  tier : Option String
  currency : Option String
  block_number : Int
  tx_hash : List Nat
  created_at : Nat
  expires_at : Option Nat
  updated_at : Nat
deriving DecidableEq, Repr

/-- `OrderModel::parse_status`: unknown strings fall back to `Pending`. -/
def OrderModel.parse_status (m : OrderModel) : OrderStatus :=
  if m.status = "PENDING" then .Pending
  else if m.status = "ACCEPTED" then .Accepted
  else if m.status = "FULFILLED" then .Fulfilled
  else if m.status = "REFUNDED" then .Refunded
  else if m.status = "EXPIRED" then .Expired
  else .Pending

/-- `OrderModel::parse_tier`: unknown or missing tiers fall back to `Alpha`. -/
def OrderModel.parse_tier (m : OrderModel) : OrderTier :=
  match m.tier with
  | some s =>
    if s = "ALPHA" then .Alpha
    else if s = "BETA" then .Beta
    else if s = "DELTA" then .Delta
    else if s = "OMEGA" then .Omega
    else if s = "TITAN" then .Titan
    else .Alpha
  | none => .Alpha

/-- `OrderModel::get_integrator_fee_bps`: the `integrator_fees` row fetched
for the integrator address is passed in as `lookup` (the database read is
external); a missing row yields the default `50` bps. -/
def get_integrator_fee_bps (lookup : Option Int) : Nat :=
  match lookup with
  | some fee => toU64 fee
  | none => 50

/-- `OrderModel::to_domain`: byte columns are hex-encoded with an `0x`
prefix, enum strings re-parsed with lenient fallbacks, and a missing
`expires_at` replaced by `created_at`. The random `Uuid::new_v4()` and the
awaited fee lookup become the `fresh_id` and `fee_lookup` arguments. -/
def OrderModel.to_domain (m : OrderModel) (fresh_id : Nat) (fee_lookup : Option Int) : Order :=
  { id := fresh_id
    order_id := hex0x m.order_id
    user_address := hex0x m.user_address
    token := hex0x m.token
    refund_address := hex0x m.refund_address
    integrator_address := hex0x m.integrator_address
    tx_hash := hex0x m.tx_hash
    amount := m.amount
    currency := Currency.from_str (m.currency.getD "")
    tier := m.parse_tier
    status := m.parse_status
    integrator_fee_bps := get_integrator_fee_bps fee_lookup
    updated_at := m.updated_at
    created_at := m.created_at
    block_number := toU64 m.block_number
    expires_at := m.expires_at.getD m.created_at }

/-! ## Database model — `src/paynode/shared/database/src/models/order.rs`

A second, older copy of the order row with its own `parse_status` and
`parse_tier`; its `to_domain` does not type-check against either types
crate, so only the two parsers are embedded. -/

/-- Database row for an order in the `paynode` tree (`OrderModel` there). -/
structure PNOrderModel where
  id : Int
  order_id : List Nat
  user_address : List Nat
  token : List Nat
  amount : String
  refund_address : List Nat
  integrator : List Nat
  status : String
  tier : Option String
  currency : Option String
  block_number : Int
  tx_hash : List Nat
  created_at : Nat
  expires_at : Option Nat
  updated_at : Nat
deriving DecidableEq, Repr

/-- `OrderModel::parse_status` (paynode copy): unknown strings fall back to
`Pending`. -/
def PNOrderModel.parse_status (m : PNOrderModel) : OrderStatus :=
  if m.status = "PENDING" then .Pending
  else if m.status = "ACCEPTED" then .Accepted
  else if m.status = "FULFILLED" then .Fulfilled
  else if m.status = "REFUNDED" then .Refunded
  else if m.status = "EXPIRED" then .Expired
  else .Pending

/-- `OrderModel::parse_tier` (paynode copy). -/
def PNOrderModel.parse_tier (m : PNOrderModel) : OrderTier :=
  match m.tier with
  | some s =>
    if s = "ALPHA" then .Alpha
    else if s = "BETA" then .Beta
    else if s = "DELTA" then .Delta
    else if s = "OMEGA" then .Omega
    else if s = "TITAN" then .Titan
    else .Alpha
  | none => .Alpha

/-! ## Concrete records used to evaluate the claims -/

/-- A proposal already in the terminal `Executed` state. -/
def c1executed : Proposal :=
  { proposal_id := "0x01"
    order_id := "0x02"
    provider := "0x03"
    proposed_fee_bps := 300
    status := .Executed
    created_at := 0
    deadline := 100
    accepted_at := some 10
    executed_at := some 20
    tx_hash := some "0xaa" }

/-- A proposal already decided (`Rejected`). -/
def c2rejected : Proposal :=
  { proposal_id := "0x11"
    order_id := "0x12"
    provider := "0x13"
    proposed_fee_bps := 250
    status := .Rejected
    created_at := 0
    deadline := 100
    accepted_at := none
    executed_at := none
    tx_hash := none }

/-- A proposal still `Pending` but past its deadline. -/
def c2stale : Proposal :=
  { proposal_id := "0x21"
    order_id := "0x22"
    provider := "0x23"
    proposed_fee_bps := 250
    status := .Pending
    created_at := 0
    deadline := 100
    accepted_at := none
    executed_at := none
    tx_hash := none }

/-! ## C1 — terminal proposal states -/

/-- C1 counterexample: a proposal in the terminal `Executed` state does
transition again — `reject` overwrites its status with `Rejected`. -/
theorem C1_counterexample :
    c1executed.status.isTerminal = true ∧
    (c1executed.reject).status ≠ c1executed.status := by decide

/-- C1 (amended): `accept`, `reject` and `execute` set the status
unconditionally — to `Accepted`, `Rejected` and `Executed` respectively —
regardless of the current state, so a proposal in a terminal state
transitions again whenever a different transition is invoked; in
particular rejecting an `Executed` proposal changes its status. -/
theorem C1_terminal_states_not_preserved (p : Proposal) (now : Nat) (tx : String)
    (hterm : p.status.isTerminal = true) :
    (p.accept now).status = .Accepted ∧
    (p.reject).status = .Rejected ∧
    (p.execute now tx).status = .Executed ∧
    (p.status = .Executed → (p.reject).status ≠ p.status) := by
  refine ⟨rfl, rfl, rfl, ?_⟩
  intro h
  rw [show (p.reject).status = .Rejected from rfl, h]
  intro hcontra
  exact ProposalStatus.noConfusion hcontra

/-- C1 witness: the amended statement evaluated on the concrete `Executed`
proposal. -/
theorem C1_terminal_states_not_preserved_witness :
    (c1executed.accept 5).status = .Accepted ∧
    (c1executed.reject).status = .Rejected ∧
    (c1executed.execute 5 "0xbb").status = .Executed ∧
    (c1executed.status = .Executed → (c1executed.reject).status ≠ c1executed.status) :=
  C1_terminal_states_not_preserved c1executed 5 "0xbb" (by decide)

/-! ## C2 — accept preconditions -/

/-- C2 counterexample: `accept` succeeds and mutates the proposal both on an
already-decided (`Rejected`) proposal — where the claim demands an
`AlreadyDecided` failure with no mutation — and on a `Pending` proposal past
its deadline — where the claim demands an `Expired` failure. -/
theorem C2_counterexample :
    (c2rejected.status ≠ .Pending ∧
      (c2rejected.accept 5).status = .Accepted ∧
      c2rejected.accept 5 ≠ c2rejected) ∧
    (c2stale.status = .Pending ∧
      c2stale.deadline < 200 ∧
      (c2stale.accept 200).status = .Accepted ∧
      c2stale.accept 200 ≠ c2stale) := by decide

/-- C2 (amended): `accept` has no failure path: for every proposal and every
current time — whatever the status and however far past the deadline — it
sets the status to `Accepted` and `accepted_at` to the current time, leaving
every other field unchanged. -/
theorem C2_accept_unconditional (p : Proposal) (now : Nat) :
    (p.accept now).status = .Accepted ∧
    (p.accept now).accepted_at = some now ∧
    (p.accept now).proposal_id = p.proposal_id ∧
    (p.accept now).order_id = p.order_id ∧
    (p.accept now).provider = p.provider ∧
    (p.accept now).proposed_fee_bps = p.proposed_fee_bps ∧
    (p.accept now).created_at = p.created_at ∧
    (p.accept now).deadline = p.deadline ∧
    (p.accept now).executed_at = p.executed_at ∧
    (p.accept now).tx_hash = p.tx_hash :=
  ⟨rfl, rfl, rfl, rfl, rfl, rfl, rfl, rfl, rfl, rfl⟩

/-! ## C3 — eligibility filter -/

/-- An order for 1 token unit at 50 bps in NGN. -/
def c3order : Order :=
  Order.new 0 "0xo" "0xu" "0xt" "1" "0xr" "0xi" 50 .NGN .Alpha 1000 1 "0xtx" 0

/-- An active NGN intent whose available amount is the decimal numeral of
`2^128`, one past `u128::MAX`. -/
def c3intent : ProviderIntent :=
  { provider := "0xp"
    currency := .NGN
    available_amount := "340282366920938463463374607431768211456"
    min_fee_bps := 0
    max_fee_bps := 100
    commitment_window_seconds := 300
    is_active := true
    registered_at := 0
    expires_at := 1000 }

/-- C3 counterexample: every condition of the claim holds under true
arbitrary-precision comparison — matching currency, active, before
`expires_at`, available `2^128 ≥ 1`, fee 50 within `[0, 100]` — yet the
code judges the intent ineligible, because `can_handle_amount` parses the
available amount with `parse::<u128>().unwrap_or(0)` and the numeral of
`2^128` overflows to `0 < 1`. -/
theorem C3_counterexample :
    c3intent.currency = c3order.currency ∧
    c3intent.is_active = true ∧
    (5 : Nat) < c3intent.expires_at ∧
    parseDec? c3intent.available_amount = some (2 ^ 128) ∧
    parseDec? c3order.amount = some 1 ∧
    (2 ^ 128 : Nat) ≥ 1 ∧
    c3intent.min_fee_bps ≤ c3order.integrator_fee_bps ∧
    c3order.integrator_fee_bps ≤ c3intent.max_fee_bps ∧
    eligible c3order c3intent 5 = false := by decide

/-- C3 (amended): eligibility is the claimed five-way conjunction, except
that the amount comparison is performed on `u128` values parsed from the
decimal strings: an unparsable or over-`u128::MAX` available amount is
treated as `0`, and an unparsable or over-`u128::MAX` order amount as
`u128::MAX`, so amounts beyond `u128::MAX` are not compared losslessly. -/
theorem C3_eligible_iff (o : Order) (i : ProviderIntent) (now : Nat) :
    eligible o i now = true ↔
      (i.currency = o.currency ∧ i.is_active = true ∧ now < i.expires_at ∧
        parseU128Or i.available_amount 0 ≥ parseU128Or o.amount u128Max ∧
        i.min_fee_bps ≤ o.integrator_fee_bps ∧
        o.integrator_fee_bps ≤ i.max_fee_bps) := by
  simp [eligible, ProviderIntent.is_valid, ProviderIntent.can_handle_amount,
    ProviderIntent.accepts_fee, and_assoc, ge_iff_le]

/-! ## C4 — reputation counter invariant -/

/-- C4: starting from `ProviderReputation::new`, after any finite sequence of
`record_success`, `record_failure` and `record_no_show` calls,
`total_orders = successful_orders + failed_orders + no_shows`. -/
theorem C4_total_orders_invariant (provider : String) (now0 : Nat)
    (evs : List ReputationEvent) :
    (evs.foldl ProviderReputation.apply (ProviderReputation.new provider now0)).total_orders
      = (evs.foldl ProviderReputation.apply (ProviderReputation.new provider now0)).successful_orders
        + (evs.foldl ProviderReputation.apply (ProviderReputation.new provider now0)).failed_orders
        + (evs.foldl ProviderReputation.apply (ProviderReputation.new provider now0)).no_shows := by
  have step : ∀ (r : ProviderReputation) (e : ReputationEvent),
      r.total_orders = r.successful_orders + r.failed_orders + r.no_shows →
      (r.apply e).total_orders
        = (r.apply e).successful_orders + (r.apply e).failed_orders + (r.apply e).no_shows := by
    intro r e h
    cases e <;>
      simp only [ProviderReputation.apply, ProviderReputation.record_success,
        ProviderReputation.record_failure, ProviderReputation.record_no_show] <;>
      omega
  have main : ∀ (l : List ReputationEvent) (r : ProviderReputation),
      r.total_orders = r.successful_orders + r.failed_orders + r.no_shows →
      (l.foldl ProviderReputation.apply r).total_orders
        = (l.foldl ProviderReputation.apply r).successful_orders
          + (l.foldl ProviderReputation.apply r).failed_orders
          + (l.foldl ProviderReputation.apply r).no_shows := by
    intro l
    induction l with
    | nil => intro r h; simpa using h
    | cons e t ih => intro r h; simpa using ih (r.apply e) (step r e h)
  exact main evs _ (by simp [ProviderReputation.new])

/-! ## C5 — record_success arithmetic -/

/-- The decimal numeral of `2^128`, one past `u128::MAX`. -/
def c5amount : String := "340282366920938463463374607431768211456"

/-- C5 counterexample: recording a success for an amount equal to `2^128` —
a well-formed decimal numeral — leaves `total_volume` at `"0"`: the amount
is parsed with `parse::<u128>().unwrap_or(0)`, overflows, and is silently
replaced by `0`, so the settled amount is lost, contradicting "no amount is
lost or wrapped for any input". -/
theorem C5_counterexample :
    parseDec? c5amount = some (2 ^ 128) ∧
    ((ProviderReputation.new "0xp" 0).record_success 10 c5amount 1).total_volume = "0" ∧
    Nat.repr (0 + 2 ^ 128) ≠ "0" := by decide

/-- C5 (amended): `record_success` increments `total_orders` and
`successful_orders` and sets the running average to
`(old_avg * (n - 1) + settlement_seconds) / n` with `n` the post-increment
successful count, as claimed; but the volume accumulation is not
arbitrary-precision: both the stored volume and the new amount are parsed
as `u128` with fallback `0`, so an unparsable or over-`u128::MAX` amount
contributes nothing. -/
theorem C5_record_success_fields (r : ProviderReputation) (t : Nat) (a : String) (now : Nat) :
    (r.record_success t a now).total_orders = r.total_orders + 1 ∧
    (r.record_success t a now).successful_orders = r.successful_orders + 1 ∧
    (r.record_success t a now).avg_settlement_time_seconds
      = (r.avg_settlement_time_seconds * ((r.successful_orders + 1) - 1) + t)
          / (r.successful_orders + 1) ∧
    (r.record_success t a now).total_volume
      = Nat.repr (parseU128Or r.total_volume 0 + parseU128Or a 0) :=
  ⟨rfl, rfl, rfl, rfl⟩

/-! ## C6 — tier classifier -/

/-- The sorted tier-limit configuration used to evaluate C6. -/
def c6limits : TierLimits :=
  { alpha := 3000, beta := 10000, delta := 50000, omega := 100000, titan := 100000 }

/-- C6: `OrderTier::from_amount` is total and factors through the parsed
numeric amount; an unparsable amount is treated as `0` and lands in the
lowest tier `Alpha`; the classifier is monotonic non-decreasing in the
parsed numeric amount; and an amount equal to a configured boundary is
assigned to the lower of the two adjacent tiers. -/
theorem C6_tier_classifier (s : String) (l : TierLimits) (x y : Nat)
    (hxy : x ≤ y) (hab : l.alpha < l.beta) (hbd : l.beta < l.delta)
    (hdo : l.delta < l.omega) :
    OrderTier.from_amount s l = tierOfNat l (parseU128Or s 0) ∧
    (parseDec? s = none → OrderTier.from_amount s l = .Alpha) ∧
    (tierOfNat l x).toNat ≤ (tierOfNat l y).toNat ∧
    tierOfNat l l.alpha = .Alpha ∧
    tierOfNat l l.beta = .Beta ∧
    tierOfNat l l.delta = .Delta ∧
    tierOfNat l l.omega = .Omega := by
  refine ⟨rfl, ?_, ?_, ?_, ?_, ?_, ?_⟩
  · intro h
    simp [OrderTier.from_amount, parseU128Or, h]
  · unfold tierOfNat
    split_ifs <;> simp [OrderTier.toNat] <;> omega
  · simp [tierOfNat]
  · unfold tierOfNat
    split_ifs <;> first | rfl | omega
  · unfold tierOfNat
    split_ifs <;> first | rfl | omega
  · unfold tierOfNat
    split_ifs <;> first | rfl | omega

/-- C6 witness: the classifier facts evaluated on the concrete sorted
configuration, an unparsable amount, and the pair `5 ≤ 20000`. -/
theorem C6_tier_classifier_witness :
    OrderTier.from_amount "oops" c6limits = tierOfNat c6limits (parseU128Or "oops" 0) ∧
    (parseDec? "oops" = none → OrderTier.from_amount "oops" c6limits = .Alpha) ∧
    (tierOfNat c6limits 5).toNat ≤ (tierOfNat c6limits 20000).toNat ∧
    tierOfNat c6limits c6limits.alpha = .Alpha ∧
    tierOfNat c6limits c6limits.beta = .Beta ∧
    tierOfNat c6limits c6limits.delta = .Delta ∧
    tierOfNat c6limits c6limits.omega = .Omega :=
  C6_tier_classifier "oops" c6limits 5 20000 (by decide) (by decide) (by decide) (by decide)

/-! ## C8 — order expiry invariant -/

/-- A stored order row with no explicit expiry (`expires_at = NULL`). -/
def c8model : OrderModel :=
  { id := 1
    order_id := [1]
    user_address := [2]
    token := [3]
    amount := "100"
    refund_address := [4]
    integrator_address := [5]
    integrator_fee := []
    status := "PENDING"
    tier := some "ALPHA"
    currency := some "NGN"
    block_number := 7
    tx_hash := [6]
    created_at := 100
    expires_at := none
    updated_at := 100 }

/-- C8 counterexample: `to_domain` on a row without an expiry yields
`expires_at = created_at`, not strictly greater; and `Order::new` accepts
an `expires_at` earlier than the creation time without complaint. -/
theorem C8_counterexample :
    (c8model.to_domain 0 none).expires_at = (c8model.to_domain 0 none).created_at ∧
    ¬ (c8model.to_domain 0 none).created_at < (c8model.to_domain 0 none).expires_at ∧
    (Order.new 0 "a" "b" "c" "1" "d" "e" 50 .NGN .Alpha 5 1 "f" 100).expires_at
      < (Order.new 0 "a" "b" "c" "1" "d" "e" 50 .NGN .Alpha 5 1 "f" 100).created_at := by
  decide

/-- C8 (amended): neither constructor enforces `expires_at > created_at`:
`Order::new` copies the supplied expiry and creation time verbatim, and
`to_domain` substitutes `created_at` itself whenever the stored row has no
expiry, producing `expires_at = created_at` there. -/
theorem C8_expiry_not_validated (m : OrderModel) (fid : Nat) (fl : Option Int)
    (fresh_id : Nat) (oid ua tok amt ra ia : String) (fee : Nat) (c : Currency)
    (tier : OrderTier) (e blk : Nat) (tx : String) (now : Nat)
    (h : m.expires_at = none) :
    (m.to_domain fid fl).expires_at = (m.to_domain fid fl).created_at ∧
    (Order.new fresh_id oid ua tok amt ra ia fee c tier e blk tx now).expires_at = e ∧
    (Order.new fresh_id oid ua tok amt ra ia fee c tier e blk tx now).created_at = now := by
  refine ⟨?_, rfl, rfl⟩
  simp [OrderModel.to_domain, h]

/-- C8 witness: the amended statement evaluated on the concrete expiry-less
row and a concrete `Order::new` call. -/
theorem C8_expiry_not_validated_witness :
    (c8model.to_domain 0 none).expires_at = (c8model.to_domain 0 none).created_at ∧
    (Order.new 0 "a" "b" "c" "1" "d" "e" 50 .NGN .Alpha 5 1 "f" 100).expires_at = 5 ∧
    (Order.new 0 "a" "b" "c" "1" "d" "e" 50 .NGN .Alpha 5 1 "f" 100).created_at = 100 :=
  C8_expiry_not_validated c8model 0 none 0 "a" "b" "c" "1" "d" "e" 50 .NGN .Alpha 5 1 "f" 100 rfl

/-! ## C9 — unknown status strings -/

/-- The expiry-less row with an unrecognized status string. -/
def c9model : OrderModel :=
  { c8model with status := "BOGUS" }

/-- The paynode copy of the row, same unrecognized status string. -/
def c9pnmodel : PNOrderModel :=
  { id := 1
    order_id := [1]
    user_address := [2]
    token := [3]
    amount := "100"
    refund_address := [4]
    integrator := [5]
    status := "BOGUS"
    tier := some "ALPHA"
    currency := some "NGN"
    block_number := 7
    tx_hash := [6]
    created_at := 100
    expires_at := none
    updated_at := 100 }

/-- C9 counterexample: both database models silently default the
unrecognized status string `"BOGUS"` to `Pending` in `parse_status` — the
lenient fallback is applied to order states, contrary to the claim — even
though `OrderStatus::from_str` itself fails loudly with `None`. -/
theorem C9_counterexample :
    OrderStatus.from_str "BOGUS" = none ∧
    c9model.parse_status = .Pending ∧
    c9pnmodel.parse_status = .Pending := by decide

/-- C9 (amended): `OrderStatus::from_str` fails loudly — it returns `None`
exactly when the string is none of the five recognized status names — but
both database models' `parse_status` silently map any unrecognized status
string to `Pending` during row-to-domain conversion. -/
theorem C9_status_parsing (s : String) (m : OrderModel) (pm : PNOrderModel)
    (hm : OrderStatus.from_str m.status = none)
    (hpm : OrderStatus.from_str pm.status = none) :
    (OrderStatus.from_str s = none ↔
      (s ≠ "PENDING" ∧ s ≠ "ACCEPTED" ∧ s ≠ "FULFILLED" ∧
        s ≠ "REFUNDED" ∧ s ≠ "EXPIRED")) ∧
    m.parse_status = .Pending ∧
    pm.parse_status = .Pending := by
  refine ⟨?_, ?_, ?_⟩
  · unfold OrderStatus.from_str
    split_ifs <;> simp_all
  · unfold OrderStatus.from_str at hm
    unfold OrderModel.parse_status
    split_ifs at hm ⊢ <;> simp_all
  · unfold OrderStatus.from_str at hpm
    unfold PNOrderModel.parse_status
    split_ifs at hpm ⊢ <;> simp_all

/-- C9 witness: the amended statement evaluated at the string `"BOGUS"` and
the two concrete rows carrying it. -/
theorem C9_status_parsing_witness :
    (OrderStatus.from_str "BOGUS" = none ↔
      ("BOGUS" ≠ "PENDING" ∧ "BOGUS" ≠ "ACCEPTED" ∧ "BOGUS" ≠ "FULFILLED" ∧
        "BOGUS" ≠ "REFUNDED" ∧ "BOGUS" ≠ "EXPIRED")) ∧
    c9model.parse_status = .Pending ∧
    c9pnmodel.parse_status = .Pending :=
  C9_status_parsing "BOGUS" c9model c9pnmodel (by decide) (by decide)

/-! ## C10 — string/enum round trips -/

/-- C10: `Currency::from_str` followed by `as_str` returns the input string
for every input — known codes map through their dedicated variants, unknown
codes survive verbatim in `Custom` — and `OrderStatus::from_str` recovers
every status value from its `as_str` rendering. -/
theorem C10_string_enum_roundtrip :
    (∀ s : String, (Currency.from_str s).as_str = s) ∧
    (∀ v : OrderStatus, OrderStatus.from_str v.as_str = some v) := by
  constructor
  · intro s
    unfold Currency.from_str
    split_ifs <;> simp_all [Currency.as_str]
  · intro v
    cases v <;> rfl

end Paynode
